import Mathlib

/-!
Verification of the video-resampling / dual-branch feature-preprocessing
pipeline of the MMAudio ComfyUI node pack (`nodes.py`).

Real numbers computed by the code (float32/float64 values) are modelled by
exact rationals `ℚ`.  Tensors are modelled as dimension tuples together with
total indexing functions; indices outside the stated dimensions are
irrelevant to every theorem below.

External collaborators (torch, torchvision, the mmaudio model library) are
modelled as follows:
* `torch.nn.functional.interpolate` with `mode='trilinear'` and
  `align_corners=False` is modelled concretely (`interpolate_trilinear`),
  following the PyTorch upsampling kernel: the source coordinate of output
  index `i` on an axis of input size `n` and output size `m` is
  `max 0 ((i + 1/2) * n / m - 1/2)`, the two taps are `i0 = ⌊src⌋` (clamped
  to `n - 1`) and `i1 = i0 + 1` (clamped), with weight `src - i0` on `i1`.
* `torchvision.transforms.v2` spatial/pointwise transforms are modelled
  concretely except for the bicubic pixel resampling itself, whose per-pixel
  values are abstracted as a parameter `bicubic` (its output *dimensions*
  are modelled exactly); every theorem holds for all such pixel functions.
* the `generate` call of the model library is abstracted as a parameter.
-/

/-- Python `int(x)` applied to a real value: truncation toward zero. -/
def pyInt (q : ℚ) : ℤ := if 0 ≤ q then ⌊q⌋ else ⌈q⌉

/-- Torch `Tensor.byte()` on a float tensor: truncate toward zero, then cast
to `uint8` (wrap-around modulo 256, the behaviour of the C++ cast). -/
def byteCast (q : ℚ) : ℕ := ((pyInt q) % 256).toNat

/-- A video tensor in the node-pack layout `(frames, height, width, channels)`
with float values; `data t y x c` is the value at frame `t`, row `y`,
column `x`, channel `c`. -/
structure VideoTensor where
  frames : ℕ
  height : ℕ
  width : ℕ
  channels : ℕ
  data : ℕ → ℕ → ℕ → ℕ → ℚ

/-- Source coordinate used by PyTorch interpolation with
`align_corners=False`: `max(0, (i + 0.5) * inSize / outSize - 0.5)`. -/
def sourceIndex (inSize outSize i : ℕ) : ℚ :=
  max 0 ((i + 1/2) * inSize / outSize - 1/2)

/-- Lower interpolation tap: `⌊src⌋`, clamped into `[0, inSize - 1]`. -/
def lowIdx (inSize : ℕ) (src : ℚ) : ℕ :=
  min (Int.toNat ⌊src⌋) (inSize - 1)

/-- Upper interpolation tap: `i0 + 1` unless that would fall outside the
input, in which case `i0` (the PyTorch edge clamp). -/
def highIdx (inSize i0 : ℕ) : ℕ :=
  if i0 + 1 < inSize then i0 + 1 else i0

/-- One-axis linear interpolation of the signal `f` at source coordinate
`src`, with the PyTorch `align_corners=False` tap/weight scheme. -/
def interp1 (inSize : ℕ) (src : ℚ) (f : ℕ → ℚ) : ℚ :=
  let i0 := lowIdx inSize src
  let i1 := highIdx inSize i0
  (1 - (src - i0)) * f i0 + (src - i0) * f i1

/-- Torch `F.interpolate(video, size=(T, H, W), mode='trilinear',
align_corners=False)` on the `[1, c, t, h, w]`-permuted video, permuted back:
separable linear interpolation along the `t`, `h`, `w` axes, channels intact.
(The kernel's 8-corner weighted sum equals this nested separable form by
distributivity.) -/
def interpolate_trilinear (v : VideoTensor) (T H W : ℕ) : VideoTensor :=
  { frames := T, height := H, width := W, channels := v.channels,
    data := fun t y x c =>
      interp1 v.frames (sourceIndex v.frames T t) (fun t1 =>
        interp1 v.height (sourceIndex v.height H y) (fun y1 =>
          interp1 v.width (sourceIndex v.width W x) (fun x1 =>
            v.data t1 y1 x1 c))) }

/-- Function `resample_video` from `nodes.py`: identity when the frame count already
matches, otherwise temporal trilinear interpolation to `new_frames` frames
(the permutes to `[1, c, t, h, w]` and back are absorbed into the index
bookkeeping of `interpolate_trilinear`). -/
def resample_video (video : VideoTensor) (new_frames : ℕ) : VideoTensor :=
  if video.frames = new_frames then video
  else interpolate_trilinear video new_frames video.height video.width

/-- Python 3 `round(x)` (used inside torchvision's center crop): round half
to even. -/
def pyRound (q : ℚ) : ℤ :=
  if q - ⌊q⌋ = 1/2 then (if 2 ∣ ⌊q⌋ then ⌊q⌋ else ⌊q⌋ + 1) else round q

/-- A single frame after `permute(0, 3, 1, 2)`, i.e. a `(channels, height,
width)` float image; `pix y x c` is the value at row `y`, column `x`,
channel `c`. -/
structure Image where
  height : ℕ
  width : ℕ
  channels : ℕ
  pix : ℕ → ℕ → ℕ → ℚ

/-- An 8-bit (PIL) image produced by `v2.ToPILImage`. -/
structure PILImage where
  height : ℕ
  width : ℕ
  channels : ℕ
  pix : ℕ → ℕ → ℕ → ℕ

/-- The per-pixel value computation of torchvision's bicubic resampling:
given the input image and the output dimensions, a pixel function for the
output.  The resampling arithmetic lives in the external torchvision
library, so it is kept abstract; every theorem below holds for every such
function. -/
def BicubicKernel : Type :=
  Image → ℕ → ℕ → (ℕ → ℕ → ℕ → ℚ)

/-- torchvision `_compute_resized_output_size` for an integer `size`
argument: the short side becomes `size` and the long side becomes
`int(size * long / short)`.  Returns `(new_height, new_width)`. -/
def resized_output_size (size h w : ℕ) : ℕ × ℕ :=
  if w ≤ h then ((pyInt ((size * h : ℚ) / w)).toNat, size)
  else (size, (pyInt ((size * w : ℚ) / h)).toNat)

/-- Transform `v2.Resize((size, size), interpolation=BICUBIC)`: resize to the exact
square `size × size`. -/
def v2ResizePair (bicubic : BicubicKernel) (size : ℕ) (img : Image) : Image :=
  { height := size, width := size, channels := img.channels,
    pix := bicubic img size size }

/-- Transform `v2.Resize(size, interpolation=BICUBIC)` with an integer `size`: resize
the short side to `size`, preserving aspect ratio; torchvision returns the
input unchanged when the short side already equals `size`. -/
def v2ResizeShort (bicubic : BicubicKernel) (size : ℕ) (img : Image) : Image :=
  if (img.width ≤ img.height ∧ img.width = size) ∨
     (img.height ≤ img.width ∧ img.height = size) then img
  else
    let hw := resized_output_size size img.height img.width
    { height := hw.1, width := hw.2, channels := img.channels,
      pix := bicubic img hw.1 hw.2 }

/-- Transform `v2.CenterCrop(size)`: output is always `size × size`; the crop window
starts at `int(round((dim - size) / 2))` on each axis and positions falling
outside the input are zero-filled (torchvision pads with fill value 0). -/
def v2CenterCrop (size : ℕ) (img : Image) : Image :=
  { height := size, width := size, channels := img.channels,
    pix := fun y x c =>
      let top := pyRound (((img.height : ℚ) - size) / 2)
      let left := pyRound (((img.width : ℚ) - size) / 2)
      let sy := (y : ℤ) + top
      let sx := (x : ℤ) + left
      if 0 ≤ sy ∧ sy < img.height ∧ 0 ≤ sx ∧ sx < img.width
      then img.pix sy.toNat sx.toNat c else 0 }

/-- Transform `v2.ToPILImage` on a float image: multiply by 255 and cast to `uint8`
(`pic.mul(255).byte()`). -/
def v2ToPILImage (img : Image) : PILImage :=
  { height := img.height, width := img.width, channels := img.channels,
    pix := fun y x c => byteCast (img.pix y x c * 255) }

/-- Transform `v2.ToTensor` on an 8-bit PIL image: a float image with values divided
by 255 (hence in `[0, 1]`). -/
def v2ToTensor (img : PILImage) : Image :=
  { height := img.height, width := img.width, channels := img.channels,
    pix := fun y x c => (img.pix y x c : ℚ) / 255 }

/-- Transform `v2.ConvertImageDtype(torch.float32)` on an already-float image: a pure
dtype cast, value-preserving. -/
def v2ConvertImageDtypeF32 (img : Image) : Image :=
  { height := img.height, width := img.width, channels := img.channels,
    pix := fun y x c => img.pix y x c }

/-- Transform `v2.Normalize(mean=[m,m,m], std=[s,s,s])`: pointwise `(v - m) / s`. -/
def v2Normalize (m s : ℚ) (img : Image) : Image :=
  { height := img.height, width := img.width, channels := img.channels,
    pix := fun y x c => (img.pix y x c - m) / s }

/-- The clip-branch transform of `process_video_tensor`:
`Resize((384, 384), BICUBIC); ToPILImage; ToTensor;
ConvertImageDtype(float32)`. -/
def clip_transform (bicubic : BicubicKernel) (img : Image) : Image :=
  v2ConvertImageDtypeF32 (v2ToTensor (v2ToPILImage
    (v2ResizePair bicubic 384 img)))

/-- The sync-branch transform of `process_video_tensor`:
`Resize(224, BICUBIC); CenterCrop(224); ToPILImage; ToTensor;
ConvertImageDtype(float32); Normalize(mean=[.5,.5,.5], std=[.5,.5,.5])`. -/
def sync_transform (bicubic : BicubicKernel) (img : Image) : Image :=
  v2Normalize (1/2) (1/2) (v2ConvertImageDtypeF32 (v2ToTensor (v2ToPILImage
    (v2CenterCrop 224 (v2ResizeShort bicubic 224 img)))))

/-- Frame `t` of a video tensor after `permute(0, 3, 1, 2)`: the
`(channels, height, width)` image whose pixels are the frame's. -/
def frameImage (v : VideoTensor) (t : ℕ) : Image :=
  { height := v.height, width := v.width, channels := v.channels,
    pix := fun y x c => v.data t y x c }

/-- A stack of transformed frames (`torch.stack([transform(f) for f in
frames])`): a 4-dimensional `(frame, channel, height, width)` tensor,
modelled as the frame count together with the per-frame images. -/
structure ProcessedFrames where
  count : ℕ
  frame : ℕ → Image

/-- Function `process_video_tensor` from `nodes.py`: derive the two branch frame
counts as `int(fps * duration_sec)` with fps 8.0 (clip) and 25.0 (sync),
resample the video to each count, and apply the branch transform to every
frame; returns the two stacked tensors and the unchanged duration. -/
def process_video_tensor (bicubic : BicubicKernel) (video_tensor : VideoTensor)
    (duration_sec : ℚ) : ProcessedFrames × ProcessedFrames × ℚ :=
  let clip_frames_count := (pyInt (8 * duration_sec)).toNat
  let sync_frames_count := (pyInt (25 * duration_sec)).toNat
  let clip_video_tensor := resample_video video_tensor clip_frames_count
  let sync_video_tensor := resample_video video_tensor sync_frames_count
  ({ count := clip_video_tensor.frames,
     frame := fun t => clip_transform bicubic (frameImage clip_video_tensor t) },
   { count := sync_video_tensor.frames,
     frame := fun t => sync_transform bicubic (frameImage sync_video_tensor t) },
   duration_sec)

/-- Modelled from the spec: the sequence configurations `CONFIG_16K` /
`CONFIG_44K` live in the repository's vendored `mmaudio.model.sequence_config`
module, which is not available here; the spec describes them only as the
16 kHz and 44 kHz sequence configurations, so the model keeps the sampling
rate and leaves every other field abstract. -/
structure SequenceConfig where
  sampling_rate : ℕ

/-- Modelled from the spec: the 16 kHz sequence configuration. -/
def CONFIG_16K : SequenceConfig := { sampling_rate := 16000 }

/-- Modelled from the spec: the 44 kHz (44100 Hz) sequence configuration. -/
def CONFIG_44K : SequenceConfig := { sampling_rate := 44100 }

/-- The audio dictionary returned by `MMAudioSampler.sample`: the waveform
(an abstract float sequence) and a sample rate. -/
structure AudioDict where
  waveform : List ℚ
  sample_rate : ℕ

/-- Method `MMAudioSampler.sample` from `nodes.py`, restricted to its data flow:
when `images` is absent both branch features are `None`; otherwise
`process_video_tensor` runs and the clip branch is replaced by `None` when
`mask_away_clip` is set (the `unsqueeze(0)` batch dimensions are absorbed
into `ProcessedFrames`).  The external `generate` call is abstracted as a
parameter, and the returned audio dictionary carries the literal sample
rate 44100 of the source. -/
def MMAudioSampler_sample (bicubic : BicubicKernel) (seq_cfg : SequenceConfig)
    (generate : Option ProcessedFrames → Option ProcessedFrames → List ℚ)
    (images : Option VideoTensor) (duration : ℚ) (mask_away_clip : Bool) :
    (Option ProcessedFrames × Option ProcessedFrames) × AudioDict :=
  let frames : Option ProcessedFrames × Option ProcessedFrames :=
    match images with
    | some imgs =>
        let processed := process_video_tensor bicubic imgs duration
        (if mask_away_clip then none else some processed.1, some processed.2.1)
    | none => (none, none)
  let waveform := generate frames.1 frames.2
  (frames, { waveform := waveform, sample_rate := 44100 })

/-- A concrete bicubic pixel function used to instantiate witnesses: every
output pixel 0.  (Theorems quantify over all `BicubicKernel`s.) -/
def zeroKernel : BicubicKernel := fun _ _ _ => fun _ _ _ => 0

/-- A concrete bicubic pixel function that samples the input at the output
coordinates unchanged; on a constant image it reproduces the constant. -/
def sampleKernel : BicubicKernel := fun img _ _ => fun y x c => img.pix y x c

/-- A concrete 3-frame 2×2 RGB video used by witnesses. -/
def videoA : VideoTensor :=
  { frames := 3, height := 2, width := 2, channels := 3,
    data := fun t y x c => (t + y + x + c : ℚ) / 10 }

/-- A concrete 2-frame 1×1 single-channel video used by witnesses. -/
def videoB : VideoTensor :=
  { frames := 2, height := 1, width := 1, channels := 1,
    data := fun t _ _ _ => (t : ℚ) }

/-- A constant grey image (value 3/10 everywhere) used by the C4
counterexample. -/
def greyImage : Image :=
  { height := 224, width := 224, channels := 3, pix := fun _ _ _ => 3/10 }

theorem resample_video_frames (video : VideoTensor) (new_frames : ℕ) :
    (resample_video video new_frames).frames = new_frames := by
  unfold resample_video
  split
  · assumption
  · rfl

/-- C2: `resample_video` called with a target frame count equal to the
input's frame count returns the input tensor itself — the identity fast
path, no interpolation. -/
theorem C2_resample_identity (video : VideoTensor) (new_frames : ℕ)
    (h : video.frames = new_frames) :
    resample_video video new_frames = video := by
  unfold resample_video
  rw [if_pos h]

theorem C2_witness : resample_video videoA 3 = videoA :=
  C2_resample_identity videoA 3 rfl

/-- C3: for frame counts `N ≥ 1` and targets `M ≥ 1`, `resample_video`
produces exactly `M` frames and leaves height, width and channel count
unchanged. -/
theorem C3_resample_shape (video : VideoTensor) (M : ℕ)
    (hN : 1 ≤ video.frames) (hM : 1 ≤ M) :
    (resample_video video M).frames = M ∧
    (resample_video video M).height = video.height ∧
    (resample_video video M).width = video.width ∧
    (resample_video video M).channels = video.channels := by
  unfold resample_video
  split
  · exact ⟨by assumption, rfl, rfl, rfl⟩
  · exact ⟨rfl, rfl, rfl, rfl⟩

theorem C3_witness :
    (resample_video videoA 5).frames = 5 ∧
    (resample_video videoA 5).height = videoA.height ∧
    (resample_video videoA 5).width = videoA.width ∧
    (resample_video videoA 5).channels = videoA.channels :=
  C3_resample_shape videoA 5 (by decide) (by decide)

/-- C7: `resample_video` and `process_video_tensor` are deterministic pure
functions — equal inputs give equal outputs (no hidden state or
randomness; both are total functions of their arguments). -/
theorem C7_deterministic (bicubic : BicubicKernel) (v1 v2 : VideoTensor)
    (n1 n2 : ℕ) (d1 d2 : ℚ)
    (hv : v1 = v2) (hn : n1 = n2) (hd : d1 = d2) :
    resample_video v1 n1 = resample_video v2 n2 ∧
    process_video_tensor bicubic v1 d1 = process_video_tensor bicubic v2 d2 := by
  subst hv
  subst hn
  subst hd
  exact ⟨rfl, rfl⟩

theorem C7_witness :
    resample_video videoA 4 = resample_video videoA 4 ∧
    process_video_tensor zeroKernel videoA 2 = process_video_tensor zeroKernel videoA 2 :=
  C7_deterministic zeroKernel videoA videoA 4 4 2 2 rfl rfl rfl

/-- C8: in `MMAudioSampler.sample`, no video input makes both branch
features `None`; with video and `mask_away_clip` true the clip branch is
`None` while the sync tensor is still produced; with video and
`mask_away_clip` false both tensors are produced. -/
theorem C8_branch_masking (bicubic : BicubicKernel) (seq_cfg : SequenceConfig)
    (gen : Option ProcessedFrames → Option ProcessedFrames → List ℚ)
    (d : ℚ) (v : VideoTensor) :
    (∀ mask : Bool,
      (MMAudioSampler_sample bicubic seq_cfg gen none d mask).1 = (none, none)) ∧
    ((MMAudioSampler_sample bicubic seq_cfg gen (some v) d true).1.1 = none ∧
     (MMAudioSampler_sample bicubic seq_cfg gen (some v) d true).1.2 =
       some (process_video_tensor bicubic v d).2.1) ∧
    ((MMAudioSampler_sample bicubic seq_cfg gen (some v) d false).1.1 =
       some (process_video_tensor bicubic v d).1 ∧
     (MMAudioSampler_sample bicubic seq_cfg gen (some v) d false).1.2 =
       some (process_video_tensor bicubic v d).2.1) :=
  ⟨fun _ => rfl, ⟨rfl, rfl⟩, ⟨rfl, rfl⟩⟩

/-- C10: the audio dictionary returned by `MMAudioSampler.sample` always
carries sample rate 44100, whatever sequence configuration (16 kHz or
44 kHz) the loaded model holds, and for every input. -/
theorem C10_sample_rate (bicubic : BicubicKernel) (seq_cfg : SequenceConfig)
    (gen : Option ProcessedFrames → Option ProcessedFrames → List ℚ)
    (images : Option VideoTensor) (d : ℚ) (mask : Bool) :
    (MMAudioSampler_sample bicubic seq_cfg gen images d mask).2.sample_rate
      = 44100 := by
  cases images <;> rfl

/-- C1 as stated is false: at duration 8.1 s the clip branch of
`process_video_tensor` holds `int(8.0 * 8.1) = 64` frames, while
`round(8.1 × 8.0) = 65`. -/
theorem C1_counterexample :
    (process_video_tensor zeroKernel videoA (81/10)).1.count
      ≠ (round ((81:ℚ)/10 * 8)).toNat := by
  have hc : (process_video_tensor zeroKernel videoA (81/10)).1.count
      = (pyInt (8 * (81/10))).toNat := by
    simp [process_video_tensor, resample_video_frames]
  have hp : pyInt (8 * ((81:ℚ)/10)) = 64 := by
    rw [pyInt, if_pos (by norm_num)]
    norm_num [Int.floor_eq_iff]
  have hr : round ((81:ℚ)/10 * 8) = 65 := by
    norm_num [round_eq, Int.floor_eq_iff]
  rw [hc, hp, hr]
  decide

/-- C1 amended: for every video tensor and positive duration the frame
count of each branch's resampled frame set equals the *truncation*
`⌊duration × branch_frame_rate⌋` (Python `int()`, not `round`), with the
fixed branch frame rates 8.0 (clip) and 25.0 (sync). -/
theorem C1_frame_counts (bicubic : BicubicKernel) (v : VideoTensor) (d : ℚ)
    (hd : 0 < d) :
    (process_video_tensor bicubic v d).1.count = (⌊8 * d⌋).toNat ∧
    (process_video_tensor bicubic v d).2.1.count = (⌊25 * d⌋).toNat := by
  have h8 : pyInt (8 * d) = ⌊8 * d⌋ := if_pos (by positivity)
  have h25 : pyInt (25 * d) = ⌊25 * d⌋ := if_pos (by positivity)
  constructor
  · simp [process_video_tensor, resample_video_frames, h8]
  · simp [process_video_tensor, resample_video_frames, h25]

theorem C1_witness :
    (0:ℚ) < 81/10 ∧
    (process_video_tensor zeroKernel videoA (81/10)).1.count
      = (⌊(8:ℚ) * (81/10)⌋).toNat ∧
    (process_video_tensor zeroKernel videoA (81/10)).2.1.count
      = (⌊(25:ℚ) * (81/10)⌋).toNat :=
  ⟨by norm_num, C1_frame_counts zeroKernel videoA (81/10) (by norm_num)⟩

theorem resample_video_height (video : VideoTensor) (m : ℕ) :
    (resample_video video m).height = video.height := by
  unfold resample_video
  split
  · rfl
  · rfl

theorem resample_video_width (video : VideoTensor) (m : ℕ) :
    (resample_video video m).width = video.width := by
  unfold resample_video
  split
  · rfl
  · rfl

theorem resample_video_channels (video : VideoTensor) (m : ℕ) :
    (resample_video video m).channels = video.channels := by
  unfold resample_video
  split
  · rfl
  · rfl

theorem v2ResizeShort_channels (bicubic : BicubicKernel) (s : ℕ) (img : Image) :
    (v2ResizeShort bicubic s img).channels = img.channels := by
  unfold v2ResizeShort
  split
  · rfl
  · rfl

/-- C5: given the resampled frame sets, the clip branch output of
`process_video_tensor` is a stack of the clip set's frame count of
3×384×384 float images, and the sync branch output is a stack of the sync
set's frame count of 3×224×224 float images. -/
theorem C5_branch_shapes (bicubic : BicubicKernel) (v : VideoTensor) (d : ℚ)
    (hc : v.channels = 3) :
    ((process_video_tensor bicubic v d).1.count
        = (resample_video v (pyInt (8 * d)).toNat).frames ∧
     ∀ t, ((process_video_tensor bicubic v d).1.frame t).height = 384 ∧
          ((process_video_tensor bicubic v d).1.frame t).width = 384 ∧
          ((process_video_tensor bicubic v d).1.frame t).channels = 3) ∧
    ((process_video_tensor bicubic v d).2.1.count
        = (resample_video v (pyInt (25 * d)).toNat).frames ∧
     ∀ t, ((process_video_tensor bicubic v d).2.1.frame t).height = 224 ∧
          ((process_video_tensor bicubic v d).2.1.frame t).width = 224 ∧
          ((process_video_tensor bicubic v d).2.1.frame t).channels = 3) := by
  refine ⟨⟨rfl, fun t => ⟨rfl, rfl, ?_⟩⟩, ⟨rfl, fun t => ⟨rfl, rfl, ?_⟩⟩⟩
  · show (frameImage (resample_video v (pyInt (8 * d)).toNat) t).channels = 3
    simp [frameImage, resample_video_channels, hc]
  · show (v2ResizeShort bicubic 224
        (frameImage (resample_video v (pyInt (25 * d)).toNat) t)).channels = 3
    simp [v2ResizeShort_channels, frameImage, resample_video_channels, hc]

theorem C5_witness :
    ((process_video_tensor zeroKernel videoA 2).1.frame 0).height = 384 ∧
    ((process_video_tensor zeroKernel videoA 2).1.frame 0).width = 384 ∧
    ((process_video_tensor zeroKernel videoA 2).1.frame 0).channels = 3 :=
  (C5_branch_shapes zeroKernel videoA 2 rfl).1.2 0

theorem byteCast_le_255 (q : ℚ) : byteCast q ≤ 255 := by
  unfold byteCast
  have h1 : pyInt q % 256 < 256 := Int.emod_lt_of_pos _ (by norm_num)
  omega

theorem quant01 (q : ℚ) :
    0 ≤ (byteCast q : ℚ) / 255 ∧ (byteCast q : ℚ) / 255 ≤ 1 := by
  have h : (byteCast q : ℚ) ≤ 255 := by exact_mod_cast byteCast_le_255 q
  constructor
  · positivity
  · rw [div_le_one (by norm_num)]
    exact h

theorem normQuant_bounds (q : ℚ) :
    -1 ≤ ((byteCast q : ℚ) / 255 - 1/2) / (1/2) ∧
    ((byteCast q : ℚ) / 255 - 1/2) / (1/2) ≤ 1 := by
  obtain ⟨h0, h1⟩ := quant01 q
  have he : ((byteCast q : ℚ) / 255 - 1/2) / (1/2)
      = 2 * ((byteCast q : ℚ) / 255) - 1 := by ring
  rw [he]
  constructor
  · linarith
  · linarith

/-- C6: every element of the clip branch output of `process_video_tensor`
lies in `[0, 1]`, and every element of the sync branch output lies in
`[-1, 1]` after the mean-0.5 / std-0.5 normalization (both hold for every
input because the PIL round trip clamps values into the 8-bit range). -/
theorem C6_value_ranges (bicubic : BicubicKernel) (v : VideoTensor) (d : ℚ)
    (t y x c : ℕ) :
    (0 ≤ ((process_video_tensor bicubic v d).1.frame t).pix y x c ∧
     ((process_video_tensor bicubic v d).1.frame t).pix y x c ≤ 1) ∧
    (-1 ≤ ((process_video_tensor bicubic v d).2.1.frame t).pix y x c ∧
     ((process_video_tensor bicubic v d).2.1.frame t).pix y x c ≤ 1) := by
  have eclip : ((process_video_tensor bicubic v d).1.frame t).pix y x c
      = (byteCast (bicubic
          (frameImage (resample_video v (pyInt (8 * d)).toNat) t)
          384 384 y x c * 255) : ℚ) / 255 := rfl
  have esync : ((process_video_tensor bicubic v d).2.1.frame t).pix y x c
      = ((byteCast ((v2CenterCrop 224 (v2ResizeShort bicubic 224
          (frameImage (resample_video v (pyInt (25 * d)).toNat) t))).pix y x c
          * 255) : ℚ) / 255 - 1/2) / (1/2) := rfl
  rw [eclip, esync]
  exact ⟨quant01 _, normQuant_bounds _⟩

/-- The clip-branch transform as the spec words it: resize, then a
value-preserving dtype conversion to float32 in `[0, 1]`, with no other
value-changing step interleaved.  Formalised from the spec for comparison
with `clip_transform` (the conversion is the identity on values because
the incoming frames are already float32 in `[0, 1]`). -/
def specOrderedClipTransform (bicubic : BicubicKernel) (img : Image) : Image :=
  v2ConvertImageDtypeF32 (v2ResizePair bicubic 384 img)

/-- The sync-branch transform as the spec words it: resize, center-crop, a
value-preserving dtype conversion to float32 in `[0, 1]`, then channel-wise
normalization with mean 0.5 and std 0.5, with no other value-changing step
interleaved.  Formalised from the spec for comparison with
`sync_transform`. -/
def specOrderedSyncTransform (bicubic : BicubicKernel) (img : Image) : Image :=
  v2Normalize (1/2) (1/2) (v2ConvertImageDtypeF32
    (v2CenterCrop 224 (v2ResizeShort bicubic 224 img)))

/-- C4 as stated is false: the pipelines interleave a value-changing step
between the crop and the dtype conversion — `ToPILImage` quantizes every
pixel to 8 bits (`mul(255).byte()`) and `ToTensor` divides by 255.  On a
constant image of value 3/10 the clip branch produces 76/255 where the
spec-ordered pipeline (resize → dtype conversion, nothing else) keeps
3/10 = 76.5/255. -/
theorem C4_counterexample :
    (clip_transform sampleKernel greyImage).pix 0 0 0
      ≠ (specOrderedClipTransform sampleKernel greyImage).pix 0 0 0 := by
  have hf : pyInt ((3:ℚ)/10 * 255) = 76 := by
    rw [pyInt, if_pos (by norm_num)]
    norm_num [Int.floor_eq_iff]
  have hb : byteCast ((3:ℚ)/10 * 255) = 76 := by
    rw [byteCast, hf]
    rfl
  have h1 : (clip_transform sampleKernel greyImage).pix 0 0 0 = (76:ℚ)/255 := by
    show ((byteCast ((3:ℚ)/10 * 255)) : ℚ) / 255 = 76/255
    rw [hb]
    norm_num
  have h2 : (specOrderedClipTransform sampleKernel greyImage).pix 0 0 0
      = 3/10 := rfl
  rw [h1, h2]
  norm_num

/-- C4 amended: in each branch the steps run in exactly the order resize →
(sync only) center-crop → `ToPILImage` → `ToTensor` → dtype cast to
float32 → (sync only) normalization, where the `ToPILImage`/`ToTensor`
pair is a value-changing 8-bit quantization round trip (multiply by 255,
truncate to uint8, divide by 255): each output pixel is the quantized
resized/cropped pixel (clip branch), respectively its normalization with
mean 0.5 and std 0.5 (sync branch), so every pre-normalization value is of
the form `k/255` with `k ≤ 255`. -/
theorem C4_transform_order (bicubic : BicubicKernel) (img : Image)
    (y x c : ℕ) :
    ((clip_transform bicubic img).pix y x c
        = (byteCast ((v2ResizePair bicubic 384 img).pix y x c * 255) : ℚ)
            / 255 ∧
     ∃ k : ℕ, k ≤ 255 ∧ (clip_transform bicubic img).pix y x c = (k : ℚ) / 255) ∧
    ((sync_transform bicubic img).pix y x c
        = ((byteCast ((v2CenterCrop 224 (v2ResizeShort bicubic 224 img)).pix
              y x c * 255) : ℚ) / 255 - 1/2) / (1/2) ∧
     ∃ k : ℕ, k ≤ 255 ∧
       (sync_transform bicubic img).pix y x c = ((k : ℚ) / 255 - 1/2) / (1/2)) :=
  ⟨⟨rfl, ⟨byteCast ((v2ResizePair bicubic 384 img).pix y x c * 255),
      byteCast_le_255 _, rfl⟩⟩,
   ⟨rfl, ⟨byteCast ((v2CenterCrop 224 (v2ResizeShort bicubic 224 img)).pix
        y x c * 255),
      byteCast_le_255 _, rfl⟩⟩⟩

theorem sourceIndex_self (n i : ℕ) (h : i < n) :
    sourceIndex n n i = (i : ℚ) := by
  unfold sourceIndex
  have hn : (n : ℚ) ≠ 0 := by
    have h0 : 0 < n := Nat.pos_of_ne_zero (by omega)
    exact_mod_cast h0.ne.symm
  have he : ((i : ℚ) + 1/2) * n / n - 1/2 = i := by
    field_simp
    ring
  rw [he]
  exact max_eq_right (Nat.cast_nonneg i)

theorem interp1_coe (n i : ℕ) (h : i < n) (f : ℕ → ℚ) :
    interp1 n ((i : ℕ) : ℚ) f = f i := by
  have h0 : lowIdx n ((i : ℕ) : ℚ) = i := by
    unfold lowIdx
    rw [Int.floor_natCast, Int.toNat_natCast]
    omega
  simp only [interp1, h0, sub_self, one_mul, zero_mul, sub_zero, add_zero]

/-- C9: when the input frame count differs from the target `M`,
`resample_video` returns exactly `M` frames with height, width and channel
count unchanged, and each output pixel is the linear blend of the two
temporally adjacent input pixels at the *same* spatial position, with taps
and weights given by the `align_corners=False` source coordinate
`max(0, (t + 1/2)·N/M − 1/2)` — interpolation along the temporal axis
only. -/
theorem C9_trilinear_temporal (v : VideoTensor) (M t y x c : ℕ)
    (hNM : v.frames ≠ M) (hy : y < v.height) (hx : x < v.width) :
    (resample_video v M).frames = M ∧
    (resample_video v M).height = v.height ∧
    (resample_video v M).width = v.width ∧
    (resample_video v M).channels = v.channels ∧
    (resample_video v M).data t y x c
      = (1 - (sourceIndex v.frames M t
            - (lowIdx v.frames (sourceIndex v.frames M t) : ℚ)))
          * v.data (lowIdx v.frames (sourceIndex v.frames M t)) y x c
        + (sourceIndex v.frames M t
            - (lowIdx v.frames (sourceIndex v.frames M t) : ℚ))
          * v.data (highIdx v.frames
              (lowIdx v.frames (sourceIndex v.frames M t))) y x c := by
  refine ⟨resample_video_frames v M, resample_video_height v M,
    resample_video_width v M, resample_video_channels v M, ?_⟩
  unfold resample_video
  rw [if_neg hNM]
  simp only [interpolate_trilinear]
  simp only [sourceIndex_self v.height y hy, sourceIndex_self v.width x hx,
    interp1_coe v.height y hy, interp1_coe v.width x hx]
  rfl

theorem C9_witness :
    (resample_video videoB 4).frames = 4 ∧
    (resample_video videoB 4).height = videoB.height ∧
    (resample_video videoB 4).width = videoB.width ∧
    (resample_video videoB 4).channels = videoB.channels ∧
    (resample_video videoB 4).data 1 0 0 0
      = (1 - (sourceIndex videoB.frames 4 1
            - (lowIdx videoB.frames (sourceIndex videoB.frames 4 1) : ℚ)))
          * videoB.data (lowIdx videoB.frames (sourceIndex videoB.frames 4 1)) 0 0 0
        + (sourceIndex videoB.frames 4 1
            - (lowIdx videoB.frames (sourceIndex videoB.frames 4 1) : ℚ))
          * videoB.data (highIdx videoB.frames
              (lowIdx videoB.frames (sourceIndex videoB.frames 4 1))) 0 0 0 :=
  C9_trilinear_temporal videoB 4 1 0 0 0 (by decide) (by decide) (by decide)
